import Mathlib

/-!
Shallow embedding of the Destiny-2 character-viewer pipeline
(`BungieAuth.js` / `index.js` / `DestinyMaterial.js`): equipment
resolution, shader-dye loading, skeleton assembly, placement
normalization, and the per-item load loop, together with theorems
settling the specification's claims about them.
-/

namespace Visor3D

/-- One entry of a per-item `dyes` array from
`characterRenderData.peerView.equipment`. -/
structure DyeEntry where
  dyeHash : Nat
  channelHash : Nat
deriving DecidableEq, Repr

/-- One entry of `peerView.equipment`: an item hash with its dye list. -/
structure PeerItem where
  itemHash : Nat
  dyes : List DyeEntry
deriving DecidableEq, Repr

/-- One socket of an item instance's socket state
(`itemComponents.sockets.data[instanceId].sockets[i]`).
An absent `plugHash` is modelled as `0`, which is what the JS
truthiness test on `plugHash` treats identically. -/
structure SocketState where
  plugHash : Nat
  isEnabled : Bool
  isVisible : Bool
deriving DecidableEq, Repr

/-- One entry of `characterEquipment.data[characterId].items`. -/
structure EquippedItem where
  bucketHash : Nat
  itemHash : Nat
  itemInstanceId : Nat
deriving DecidableEq, Repr

/-- The character fields read by `parseEquipmentForLoader`. -/
structure Character where
  classType : Nat
  genderType : Nat
  raceType : Nat
  light : Nat
  emblemPath : String
deriving DecidableEq, Repr

/-- The profile-response components consumed by
`parseEquipmentForLoader`, each a map keyed by character id or
instance id (modelled as association lists; JS object keys are
unique, `find?` returns the binding when present). -/
structure ProfileSnapshot where
  characters : List (Nat × Character)
  characterEquipment : List (Nat × List EquippedItem)
  itemSockets : List (Nat × List SocketState)
  characterRenderData : List (Nat × List PeerItem)
deriving DecidableEq, Repr

/-- JS object indexing `obj[key]` over an association list. -/
def assocLookup {α : Type} (l : List (Nat × α)) (k : Nat) : Option α :=
  (l.find? (fun p => p.1 == k)).map (fun p => p.2)

/-- The five armor slots of `ARMOR_BUCKETS`, in the object's key order. -/
inductive ArmorBucket
  | helmet
  | gauntlets
  | chest
  | legs
  | classItem
deriving DecidableEq, Repr

/-- The bucket-hash constant bound to each slot (`ARMOR_BUCKETS`). -/
def ArmorBucket.hash : ArmorBucket → Nat
  | .helmet => 3448274439
  | .gauntlets => 3551918588
  | .chest => 14239492
  | .legs => 20886954
  | .classItem => 1585787867

/-- Iteration order of the `for (const bucketName in ARMOR_BUCKETS)` loop:
JS string keys enumerate in insertion order. -/
def armorBucketOrder : List ArmorBucket :=
  [.helmet, .gauntlets, .chest, .legs, .classItem]

/-- The JS condition `sockets[i]?.plugHash && sockets[i]?.isVisible`:
an index out of range yields `undefined` (falsy), `plugHash` is truthy
iff non-zero. -/
def socketMatches (ss : List SocketState) (i : Nat) : Bool :=
  match ss.get? i with
  | some s => s.plugHash != 0 && s.isVisible
  | none => false

/-- `sockets[i].plugHash` as read when the match condition held. -/
def socketPlug (ss : List SocketState) (i : Nat) : Nat :=
  ((ss.get? i).map (fun s => s.plugHash)).getD 0

/-- The `for (let i = 3; i <= 5; i++)` shader-detection loop body,
over the remaining indices to visit: first matching socket wins
(`break`), otherwise `shaderHash` keeps its initial `0`. -/
def findShaderLoop (ss : List SocketState) : List Nat → Nat
  | [] => 0
  | i :: rest => if socketMatches ss i then socketPlug ss i else findShaderLoop ss rest

/-- Shader detection over an item's socket list: scan indices 3..5. -/
def findShader (ss : List SocketState) : Nat :=
  findShaderLoop ss [3, 4, 5]

/-- `itemSockets[itemInstanceId]?.sockets` guard: no socket state means
`shaderHash` stays `0`. -/
def shaderForItem (sockets? : Option (List SocketState)) : Nat :=
  match sockets? with
  | some ss => findShader ss
  | none => 0

/-- `peerViewEquipment.find(pe => pe.itemHash === itemHash)?.dyes || []`. -/
def peerDyesFor (peer : List PeerItem) (itemHash : Nat) : List DyeEntry :=
  ((peer.find? (fun pe => pe.itemHash == itemHash)).map (fun pe => pe.dyes)).getD []

/-- The record pushed per found armor piece (`armorItems[k]`). -/
structure ArmorEntry where
  bucket : ArmorBucket
  itemHash : Nat
  instanceId : Nat
deriving DecidableEq, Repr

/-- One loop iteration's combined pushes onto `armorItems`,
`shaderHashes` and `itemDyes` (all three happen together inside the
same `if (item)` block). -/
structure ArmorResolved where
  entry : ArmorEntry
  shaderHash : Nat
  dyes : List DyeEntry
deriving DecidableEq, Repr

/-- Body of one iteration of the bucket loop in
`parseEquipmentForLoader`: `items.find(i => i.bucketHash === bucketHash)`,
then shader detection on the item instance's sockets and the peer-view
dye lookup; `none` when the slot has no equipped item. -/
def resolveBucket (items : List EquippedItem)
    (sockets : Nat → Option (List SocketState)) (peer : List PeerItem)
    (b : ArmorBucket) : Option ArmorResolved :=
  match items.find? (fun i => i.bucketHash == b.hash) with
  | none => none
  | some item =>
    some { entry := ⟨b, item.itemHash, item.itemInstanceId⟩,
           shaderHash := shaderForItem (sockets item.itemInstanceId),
           dyes := peerDyesFor peer item.itemHash }

/-- The whole bucket loop: one optional resolved piece per slot, in
the fixed `ARMOR_BUCKETS` key order. -/
def armorTriples (items : List EquippedItem)
    (sockets : Nat → Option (List SocketState)) (peer : List PeerItem) :
    List ArmorResolved :=
  armorBucketOrder.filterMap (resolveBucket items sockets peer)

/-- JS runtime error taxonomy for `parseEquipmentForLoader`.
`typeError` is a property access on `undefined`; `missingCharacter`
is the `MissingCharacterError` the specification's §7 taxonomy names —
the code never constructs it (no such class exists in the sources),
the constructor exists so statements about it can be expressed. -/
inductive JsError
  | typeError
  | missingCharacter
deriving DecidableEq, Repr

/-- Return value of `parseEquipmentForLoader`. -/
structure ParsedEquipment where
  character : Character
  itemHashes : List Nat
  shaderHashes : List Nat
  armorDetails : List ArmorEntry
  itemDyes : List (List DyeEntry)
  peerViewEquipment : List PeerItem
deriving DecidableEq, Repr

/-- `parseEquipmentForLoader(profileData, characterId)`.
`characters[characterId]` is read without a guard; when the id is
absent the function reaches `character.classType` in its return
statement and throws a `TypeError` — modelled as `.error .typeError`.
`equipment[characterId]?.items || []` and the render-data reads are
guarded, so absent equipment or render data yield empty lists. -/
def parseEquipmentForLoader (p : ProfileSnapshot) (characterId : Nat) :
    Except JsError ParsedEquipment :=
  let character? := assocLookup p.characters characterId
  let items := (assocLookup p.characterEquipment characterId).getD []
  let sockets := fun instanceId => assocLookup p.itemSockets instanceId
  let peer := (assocLookup p.characterRenderData characterId).getD []
  let triples := armorTriples items sockets peer
  match character? with
  | none => .error .typeError
  | some c =>
    .ok { character := c,
          itemHashes := (triples.map (fun t => t.entry)).map (fun a => a.itemHash),
          shaderHashes := triples.map (fun t => t.shaderHash),
          armorDetails := triples.map (fun t => t.entry),
          itemDyes := triples.map (fun t => t.dyes),
          peerViewEquipment := peer }

/-! ### Shader dye loading (`loadShaderDyes`, index.js) -/

/-- The tint triples logged and consumed from a gear asset's
`material_properties`; RGB components as rationals. -/
structure MaterialDye where
  primary_albedo_tint : ℚ × ℚ × ℚ
  secondary_albedo_tint : ℚ × ℚ × ℚ
  worn_albedo_tint : ℚ × ℚ × ℚ
deriving DecidableEq, Repr

/-- The dye lists of a gear asset, as returned by
`TGXManifest.getAsset` (`data.gearAsset`). -/
structure GearAsset where
  custom_dyes : List MaterialDye
  default_dyes : List MaterialDye
  locked_dyes : List MaterialDye
deriving DecidableEq, Repr

/-- How one `manifest.getAsset(shaderHash, cb, _, errCb)` call resolves
towards `loadShaderDyes`: the callback fires with data carrying a gear
asset (`asset`), with no usable data — `!data || !data.gearAsset` —
(`noGearAsset`), or the error callback / an exception fires
(`transportError`). -/
inductive ManifestResult
  | asset (g : GearAsset)
  | noGearAsset
  | transportError
deriving DecidableEq, Repr

/-- `loadShaderDyes(shaderHash)` given how the manifest lookup
resolves: zero/absent hash returns `null` immediately; a gear asset
yields its `custom_dyes` when non-empty, else its `default_dyes` when
non-empty, else `null`; missing data resolves `null`; the error
callback and the surrounding `catch` also resolve `null`. -/
def loadShaderDyes (shaderHash : Nat) (m : ManifestResult) :
    Option (List MaterialDye) :=
  if shaderHash = 0 then none
  else
    match m with
    | .asset g =>
      if g.custom_dyes.length > 0 then some g.custom_dyes
      else if g.default_dyes.length > 0 then some g.default_dyes
      else none
    | .noGearAsset => none
    | .transportError => none

/-- Origin tag of a resolved dye set (specification §3,
`ResolvedDyeSet.origin`). -/
inductive DyeOrigin
  | Custom
  | Default
  | Locked
  | Fallback
deriving DecidableEq, Repr

/-- A resolved per-piece dye set (specification §3). -/
structure ResolvedDyeSet where
  primaryTint : ℚ × ℚ × ℚ
  secondaryTint : ℚ × ℚ × ℚ
  wornTint : ℚ × ℚ × ℚ
  origin : DyeOrigin
deriving DecidableEq, Repr

/-- Modelled from the spec: the component that turns the dye list
returned by `loadShaderDyes` into a per-piece `ResolvedDyeSet`
(the TGXLoader material pipeline, `three.tgxloader.js`) is not among
the sources; per §4.3 it takes the first entry of the chosen dye list
and tags it with the origin of that list. -/
def toResolvedDyeSet (dyes? : Option (List MaterialDye)) (o : DyeOrigin) :
    Option ResolvedDyeSet :=
  match dyes? with
  | some (d :: _) =>
    some ⟨d.primary_albedo_tint, d.secondary_albedo_tint, d.worn_albedo_tint, o⟩
  | _ => none

/-! ### Skeleton assembly (`loadModel`, index.js) -/

/-- The bone fields consulted by the hierarchy pass of `loadModel`
(the transform arrays `pos`/`rotq`/`scl` feed only the node's local
transform and play no part in hierarchy or root selection). -/
structure BoneData where
  name : String
  parent : Int
deriving DecidableEq, Repr

/-- The parent-attachment pass:
`if (boneData.parent >= 0 && boneData.parent < threeBones.length)
threeBones[boneData.parent].add(threeBones[i])`; entry `i` records the
parent node bone `i` is attached to, `none` when the condition fails
and the bone is left unattached. -/
def boneParents (bones : List BoneData) : List (Option Nat) :=
  bones.map (fun b =>
    if 0 ≤ b.parent ∧ b.parent < (bones.length : Int) then some b.parent.toNat
    else none)

/-- The root-selection pass, carrying the running `rootBone` choice and
the current index: `let rootBone = threeBones[0]` then
`forEach: if (parent < 0 || parent === undefined) rootBone = threeBones[i]`. -/
def rootIndexLoop (acc i : Nat) : List BoneData → Nat
  | [] => acc
  | b :: rest => rootIndexLoop (if b.parent < 0 then i else acc) (i + 1) rest

/-- Index of the bone chosen as skeleton root. -/
def rootIndex (bones : List BoneData) : Nat :=
  rootIndexLoop 0 0 bones

/-- Error taxonomy for model assembly (specification §7 names
`MalformedSkeletonError`; the skeleton code in `loadModel` has no
failure path, the codomain records the taxonomy so its absence can be
stated). -/
inductive ModelError
  | malformedSkeleton
deriving DecidableEq, Repr

/-- The skeleton structure `loadModel` composes. -/
structure SkeletonResult where
  parents : List (Option Nat)
  rootIndex : Nat
deriving DecidableEq, Repr

/-- The skeleton-assembly portion of `loadModel`: attach bones, pick a
root, and hand the skeleton to the mesh; there is no validation and no
throw between creating the bone nodes and binding the skeleton. -/
def buildSkeleton (bones : List BoneData) : Except ModelError SkeletonResult :=
  .ok { parents := boneParents bones, rootIndex := rootIndex bones }

/-! ### Placement normalization (`addGroupToScene`, index.js) -/

/-- An IEEE-double-valued JS number as the placement code observes it:
a finite value (exact rational), `NaN`, or a signed infinity. Signed
zero is not distinguished; none of the modelled expressions depend on
it. -/
inductive JsNum
  | fin (q : ℚ)
  | nan
  | inf
  | negInf
deriving DecidableEq, Repr

/-- `Number.isFinite` / the global `isFinite`. -/
def JsNum.isFinite : JsNum → Bool
  | .fin _ => true
  | _ => false

/-- JS `<=`: any comparison involving `NaN` is false. -/
def JsNum.leb : JsNum → JsNum → Bool
  | .nan, _ => false
  | _, .nan => false
  | .fin a, .fin b => a ≤ b
  | .negInf, _ => true
  | _, .inf => true
  | .inf, _ => false
  | .fin _, .negInf => false

/-- JS `<`: any comparison involving `NaN` is false. -/
def JsNum.ltb : JsNum → JsNum → Bool
  | .nan, _ => false
  | _, .nan => false
  | .fin a, .fin b => a < b
  | .negInf, .negInf => false
  | .negInf, _ => true
  | _, .inf => true
  | .inf, _ => false
  | .fin _, .negInf => false

/-- JS unary minus. -/
def JsNum.neg : JsNum → JsNum
  | .fin a => .fin (-a)
  | .nan => .nan
  | .inf => .negInf
  | .negInf => .inf

/-- JS multiplication (`±∞ * 0 = NaN`). -/
def JsNum.mul : JsNum → JsNum → JsNum
  | .nan, _ => .nan
  | _, .nan => .nan
  | .fin a, .fin b => .fin (a * b)
  | .inf, .inf => .inf
  | .inf, .negInf => .negInf
  | .negInf, .inf => .negInf
  | .negInf, .negInf => .inf
  | .inf, .fin b => if b = 0 then .nan else if 0 < b then .inf else .negInf
  | .fin a, .inf => if a = 0 then .nan else if 0 < a then .inf else .negInf
  | .negInf, .fin b => if b = 0 then .nan else if 0 < b then .negInf else .inf
  | .fin a, .negInf => if a = 0 then .nan else if 0 < a then .negInf else .inf

/-- JS division (`0/0 = NaN`, `a/0 = ±∞`, `a/±∞ = 0`, `∞/∞ = NaN`). -/
def JsNum.div : JsNum → JsNum → JsNum
  | .nan, _ => .nan
  | _, .nan => .nan
  | .fin a, .fin b =>
    if b = 0 then (if a = 0 then .nan else if 0 < a then .inf else .negInf)
    else .fin (a / b)
  | .fin _, .inf => .fin 0
  | .fin _, .negInf => .fin 0
  | .inf, .fin b => if 0 ≤ b then .inf else .negInf
  | .negInf, .fin b => if 0 ≤ b then .negInf else .inf
  | .inf, _ => .nan
  | .negInf, _ => .nan

/-- `Math.max` of two values: `NaN` if either argument is `NaN`. -/
def JsNum.max2 (a b : JsNum) : JsNum :=
  if a = .nan ∨ b = .nan then .nan
  else if a.leb b then b else a

/-- A JS 3-vector (`THREE.Vector3` components as observed values). -/
structure V3 where
  x : JsNum
  y : JsNum
  z : JsNum
deriving DecidableEq, Repr

/-- The outputs `addGroupToScene` derives from the bounding box. -/
structure Placement where
  maxDim : JsNum
  center : V3
  scaleFactor : JsNum
  position : V3
  cameraDistance : JsNum
  cameraZ : JsNum
deriving DecidableEq, Repr

/-- The placement-normalization portion of `addGroupToScene`, as a
function of the computed bounding-box maximum extent `maxDim0`, the
box center `center0`, and the value of `Math.tan(fov/2)` for the
camera's field of view:
fallback `maxDim = 2`, `center = (0,1,0)` when
`!isFinite(maxDim) || maxDim <= 0`; then
`scaleFactor = 1/maxDim` only when `maxDim < 0.5 && maxDim > 0`, else `1`;
`position = -(center * scaleFactor)` componentwise;
`cameraDistance = (maxDim * scaleFactor) / (2 * tan(fov/2)) * 1.5`;
camera z set to `Math.max(cameraDistance, 2)`. -/
def normalizePlacement (maxDim0 : JsNum) (center0 : V3) (tanHalfFov : JsNum) :
    Placement :=
  let bad := !maxDim0.isFinite || maxDim0.leb (.fin 0)
  let maxDim := if bad then .fin 2 else maxDim0
  let center := if bad then ⟨.fin 0, .fin 1, .fin 0⟩ else center0
  let scaleFactor :=
    if maxDim.ltb (.fin (1 / 2)) && (JsNum.fin 0).ltb maxDim then
      (JsNum.fin 1).div maxDim
    else .fin 1
  let position : V3 :=
    ⟨(center.x.mul scaleFactor).neg,
     (center.y.mul scaleFactor).neg,
     (center.z.mul scaleFactor).neg⟩
  let cameraDistance :=
    ((maxDim.mul scaleFactor).div ((JsNum.fin 2).mul tanHalfFov)).mul (.fin (3 / 2))
  let cameraZ := JsNum.max2 cameraDistance (.fin 2)
  ⟨maxDim, center, scaleFactor, position, cameraDistance, cameraZ⟩

/-! ### The per-item load loop (`init`, index.js) -/

/-- A successfully composed mesh, identified as `item_${itemHash}`. -/
structure Mesh where
  itemHash : Nat
deriving DecidableEq, Repr

/-- A rejected per-item load (`loadModel`'s error callback rejects the
promise; `loadShaderDyes` never rejects — it resolves `null` on any
failure, see `loadShaderDyes`). -/
inductive LoadError
  | geometryFetchFailed
  | malformedData
deriving DecidableEq, Repr

/-- The user-visible outcome of a character load:
`noEquipment` — `"No se encontró armadura equipada"` when
`itemHashes` is empty; `nothingLoaded` — `"Error: No se pudo cargar
ninguna pieza de armadura."` when items were attempted but the group
ended empty; `rendered` — the group handed to `addGroupToScene`. -/
inductive LoadOutcome
  | noEquipment
  | nothingLoaded
  | rendered (meshes : List Mesh)
deriving DecidableEq, Repr

/-- The character-load loop of `init`: each item is awaited inside its
own `try`/`catch`; a caught failure logs and continues with the next
item; afterwards the group's children decide which outcome the user
sees. `loadItem` stands for the awaited `loadShaderDyes`+`loadModel`
of one item. -/
def loadCharacterEquipment (itemHashes : List Nat)
    (loadItem : Nat → Except LoadError Mesh) : LoadOutcome :=
  if itemHashes.isEmpty then .noEquipment
  else
    let loaded := itemHashes.filterMap (fun h => (loadItem h).toOption)
    if loaded.isEmpty then .nothingLoaded else .rendered loaded

/-! ### Helper lemmas -/

theorem socketMatches_some {ss : List SocketState} {i : Nat} {s : SocketState}
    (h : ss.get? i = some s) :
    socketMatches ss i = (s.plugHash != 0 && s.isVisible) := by
  simp only [socketMatches, h]

theorem socketPlug_some {ss : List SocketState} {i : Nat} {s : SocketState}
    (h : ss.get? i = some s) : socketPlug ss i = s.plugHash := by
  unfold socketPlug
  rw [h]
  rfl

theorem socketMatches_false_of_miss {ss : List SocketState} {i : Nat}
    (h : ∀ s, ss.get? i = some s → s.plugHash = 0 ∨ s.isVisible = false) :
    socketMatches ss i = false := by
  unfold socketMatches
  cases hg : ss.get? i with
  | none => rfl
  | some s =>
    rcases h s hg with h0 | h0 <;> simp [h0]

/-- C2: for every item with socket state, the resolved shader hash is the
`plugHash` of the first socket among indices 3, 4, 5 (in ascending order)
that is visible and has a non-zero `plugHash`; when no socket in that
range qualifies, the shader hash is 0. -/
theorem shaderHash_first_visible_socket (ss : List SocketState) :
    ((∀ i s, 3 ≤ i → i ≤ 5 → ss.get? i = some s →
        s.plugHash = 0 ∨ s.isVisible = false) → findShader ss = 0) ∧
    (∀ i s, 3 ≤ i → i ≤ 5 → ss.get? i = some s →
      s.plugHash ≠ 0 → s.isVisible = true →
      (∀ j t, 3 ≤ j → j < i → ss.get? j = some t →
        t.plugHash = 0 ∨ t.isVisible = false) →
      findShader ss = s.plugHash) := by
  constructor
  · intro hmiss
    have h3 : socketMatches ss 3 = false :=
      socketMatches_false_of_miss (fun s => hmiss 3 s (by omega) (by omega))
    have h4 : socketMatches ss 4 = false :=
      socketMatches_false_of_miss (fun s => hmiss 4 s (by omega) (by omega))
    have h5 : socketMatches ss 5 = false :=
      socketMatches_false_of_miss (fun s => hmiss 5 s (by omega) (by omega))
    simp [findShader, findShaderLoop, h3, h4, h5]
  · intro i s h3i hi5 hget hplug hvis hbefore
    have hmatch : socketMatches ss i = true := by
      rw [socketMatches_some hget]
      simp [hplug, hvis]
    have hplugeq : socketPlug ss i = s.plugHash := socketPlug_some hget
    interval_cases i
    · simp [findShader, findShaderLoop, hmatch, hplugeq]
    · have h3 : socketMatches ss 3 = false :=
        socketMatches_false_of_miss (fun t => hbefore 3 t (by omega) (by omega))
      simp [findShader, findShaderLoop, h3, hmatch, hplugeq]
    · have h3 : socketMatches ss 3 = false :=
        socketMatches_false_of_miss (fun t => hbefore 3 t (by omega) (by omega))
      have h4 : socketMatches ss 4 = false :=
        socketMatches_false_of_miss (fun t => hbefore 4 t (by omega) (by omega))
      simp [findShader, findShaderLoop, h3, h4, hmatch, hplugeq]

/-- Concrete instance of `shaderHash_first_visible_socket`: socket 3 is
invisible, socket 4 is visible with plug 77, so the shader hash is 77. -/
theorem shaderHash_first_visible_socket_witness :
    findShader [⟨1, true, true⟩, ⟨2, true, true⟩, ⟨9, true, true⟩,
                ⟨3, true, false⟩, ⟨77, true, true⟩] = 77 := by
  refine (shaderHash_first_visible_socket _).2 4 ⟨77, true, true⟩
    (by omega) (by omega) rfl (by decide) rfl ?_
  intro j t h3j hj4 hget
  have hj : j = 3 := by omega
  subst hj
  simp only [List.get?] at hget
  cases hget
  simp

/-- C9 counterexample: for shader hash 999, a transport-level failure and
a no-gear-asset (NotFound) lookup resolve to the very same value `none`,
so the two outcomes are collapsed rather than kept distinguishable. -/
theorem transport_error_equals_notFound :
    loadShaderDyes 999 ManifestResult.transportError = none ∧
    loadShaderDyes 999 ManifestResult.noGearAsset = none ∧
    loadShaderDyes 999 ManifestResult.transportError =
      loadShaderDyes 999 ManifestResult.noGearAsset := by
  refine ⟨rfl, rfl, rfl⟩

/-- C9 amended: a transport-level failure is caught by `loadShaderDyes`'s
error handler and resolved as `null`, the same value a NotFound lookup
resolves to; callers cannot distinguish the two outcomes. -/
theorem transport_error_collapsed (h : Nat) :
    loadShaderDyes h ManifestResult.transportError = none ∧
    loadShaderDyes h ManifestResult.noGearAsset = none := by
  unfold loadShaderDyes
  constructor <;> split <;> rfl

theorem boneParents_get? {bones : List BoneData} {i : Nat} {b : BoneData}
    (h : bones.get? i = some b) :
    (boneParents bones).get? i =
      some (if 0 ≤ b.parent ∧ b.parent < (bones.length : Int) then
              some b.parent.toNat
            else none) := by
  unfold boneParents
  rw [List.get?_map, h]
  rfl

/-- C5 counterexample: the bone sequence `[{parent:-1},{parent:5}]` does
not make assembly fail with `MalformedSkeletonError`; the hierarchy pass
completes and the mesh is composed. -/
theorem malformed_skeleton_not_rejected :
    buildSkeleton [⟨"root", -1⟩, ⟨"stray", 5⟩] ≠
      Except.error ModelError.malformedSkeleton ∧
    buildSkeleton [⟨"root", -1⟩, ⟨"stray", 5⟩] =
      Except.ok ⟨[none, none], 0⟩ := by
  refine ⟨fun h => by simp [buildSkeleton] at h, by rfl⟩

/-- C5 amended: `loadModel`'s skeleton pass performs no validation: a
bone whose parent index is out of range (including any index ≥ the
sequence length) is silently left unattached, a bone whose parent index
is in range is attached to that bone even when it is a forward or self
reference, and assembly always succeeds — it never fails with
`MalformedSkeletonError`. -/
theorem skeleton_no_validation (bones : List BoneData) :
    ((buildSkeleton bones).isOk = true) ∧
    (∀ i b, bones.get? i = some b → 0 ≤ b.parent →
      b.parent < (bones.length : Int) →
      (boneParents bones).get? i = some (some b.parent.toNat)) ∧
    (∀ i b, bones.get? i = some b →
      ¬(0 ≤ b.parent ∧ b.parent < (bones.length : Int)) →
      (boneParents bones).get? i = some none) := by
  refine ⟨rfl, ?_, ?_⟩
  · intro i b hget h0 hlen
    rw [boneParents_get? hget, if_pos ⟨h0, hlen⟩]
  · intro i b hget hbad
    rw [boneParents_get? hget, if_neg hbad]

/-- Concrete instance of `skeleton_no_validation` at the sequence
`[{parent:-1},{parent:5}]`: assembly succeeds and the out-of-range bone
is left unattached. -/
theorem skeleton_no_validation_witness :
    (buildSkeleton [⟨"root", -1⟩, ⟨"stray", 5⟩]).isOk = true ∧
    (boneParents [⟨"root", -1⟩, ⟨"stray", 5⟩]).get? 1 = some none := by
  refine ⟨(skeleton_no_validation _).1,
    (skeleton_no_validation [⟨"root", -1⟩, ⟨"stray", 5⟩]).2.2 1 ⟨"stray", 5⟩
      rfl (by decide)⟩

theorem rootIndexLoop_no_neg {l : List BoneData} (acc i : Nat)
    (h : ∀ b ∈ l, ¬(b.parent < 0)) : rootIndexLoop acc i l = acc := by
  induction l generalizing acc i with
  | nil => rfl
  | cons a l ih =>
    have ha : ¬(a.parent < 0) := h a (by simp)
    simp only [rootIndexLoop, if_neg ha]
    exact ih acc (i + 1) (fun b hb => h b (by simp [hb]))

theorem rootIndexLoop_last_neg (l : List BoneData) :
    ∀ (i acc k : Nat) (b : BoneData), l.get? i = some b → b.parent < 0 →
    (∀ j c, i < j → l.get? j = some c → ¬(c.parent < 0)) →
    rootIndexLoop acc k l = k + i := by
  induction l with
  | nil =>
    intro i acc k b hget
    cases hget
  | cons a l ih =>
    intro i acc k b hget hneg hafter
    cases i with
    | zero =>
      have hb : a = b := by
        simp only [List.get?] at hget
        exact Option.some.inj hget
      subst hb
      simp only [rootIndexLoop, if_pos hneg]
      have hrest : ∀ c ∈ l, ¬(c.parent < 0) := by
        intro c hc
        obtain ⟨n, hn⟩ := List.get?_of_mem hc
        exact hafter (n + 1) c (by omega) hn
      rw [rootIndexLoop_no_neg k (k + 1) hrest]
      omega
    | succ m =>
      have hget' : l.get? m = some b := hget
      have hafter' : ∀ j c, m < j → l.get? j = some c → ¬(c.parent < 0) := by
        intro j c hj hc
        exact hafter (j + 1) c (by omega) hc
      simp only [rootIndexLoop]
      rw [ih m (if a.parent < 0 then k else acc) (k + 1) b hget' hneg hafter']
      omega

/-- C6 counterexample: with two root candidates
`[{parent:-1},{parent:-1}]`, the bone chosen as skeleton root is the one
at index 1 — the last candidate, not the first. -/
theorem root_selection_not_first :
    rootIndex [⟨"a", -1⟩, ⟨"b", -1⟩] = 1 ∧
    rootIndex [⟨"a", -1⟩, ⟨"b", -1⟩] ≠ 0 := by
  refine ⟨rfl, by decide⟩

/-- C6 amended: when several descriptors have a negative parent index,
the bone chosen as skeleton root is the last such descriptor in sequence
order (each candidate overwrites the `rootBone` variable). -/
theorem root_selection_last_wins {bones : List BoneData} {i : Nat}
    {b : BoneData} (hget : bones.get? i = some b) (hneg : b.parent < 0)
    (hafter : ∀ j c, i < j → bones.get? j = some c → ¬(c.parent < 0)) :
    rootIndex bones = i := by
  unfold rootIndex
  rw [rootIndexLoop_last_neg bones i 0 0 b hget hneg hafter]
  omega

/-- Concrete instance of `root_selection_last_wins`: among
`[{parent:3},{parent:-1},{parent:0}]` the root is bone 1, the last (and
only) candidate with a negative parent index. -/
theorem root_selection_last_wins_witness :
    rootIndex [⟨"x", 3⟩, ⟨"r", -1⟩, ⟨"y", 0⟩] = 1 := by
  refine root_selection_last_wins rfl (by decide) ?_
  intro j c hj hget
  have hjlen : j < 3 := by
    have hx := List.get?_eq_some.mp hget
    exact hx.1
  have hj2 : j = 2 := by omega
  subst hj2
  simp only [List.get?] at hget
  cases hget
  decide

/-- C3 counterexample: on a snapshot whose character map does not
contain the requested id, `parseEquipmentForLoader` throws the generic
`TypeError` of an `undefined` property access, which is not a
`MissingCharacterError`. -/
theorem absent_character_not_missingCharacterError :
    parseEquipmentForLoader ⟨[], [], [], []⟩ 7 =
      Except.error JsError.typeError ∧
    JsError.typeError ≠ JsError.missingCharacter := by
  refine ⟨rfl, by decide⟩

theorem resolveBucket_nil (sockets : Nat → Option (List SocketState))
    (peer : List PeerItem) (b : ArmorBucket) :
    resolveBucket [] sockets peer b = none := rfl

/-- C3 amended: if the target character id is absent from the snapshot,
`parseEquipmentForLoader` fails by throwing a generic `TypeError`
(reading `classType` of `undefined`), not a distinguishable
`MissingCharacterError`; when the character is present it never throws
for missing equipment — the descriptor sequence is simply empty. -/
theorem absent_character_typeError (p : ProfileSnapshot) (cid : Nat) :
    (assocLookup p.characters cid = none →
      parseEquipmentForLoader p cid = Except.error JsError.typeError) ∧
    (∀ ch, assocLookup p.characters cid = some ch →
      ∃ out, parseEquipmentForLoader p cid = Except.ok out ∧
        (assocLookup p.characterEquipment cid = none →
          out.armorDetails = [])) := by
  constructor
  · intro hnone
    unfold parseEquipmentForLoader
    rw [hnone]
  · intro ch hch
    unfold parseEquipmentForLoader
    rw [hch]
    refine ⟨_, rfl, ?_⟩
    intro heq
    simp only [heq, Option.getD_none]
    simp [armorTriples, armorBucketOrder, resolveBucket_nil]

/-- Concrete instance of `absent_character_typeError`: with the
character present but no equipment component for it, resolution
succeeds. -/
theorem absent_character_typeError_witness :
    (parseEquipmentForLoader
      ⟨[(7, ⟨0, 0, 0, 1800, "e"⟩)], [], [], []⟩ 7).isOk = true := by
  obtain ⟨out, hout, -⟩ :=
    (absent_character_typeError ⟨[(7, ⟨0, 0, 0, 1800, "e"⟩)], [], [], []⟩ 7).2
      ⟨0, 0, 0, 1800, "e"⟩ rfl
  rw [hout]
  rfl

/-- C4: for a non-zero shader hash whose gear asset has a non-empty
`custom_dyes` list, `loadShaderDyes` returns exactly that list — whatever
`default_dyes` and `locked_dyes` contain — and the resolved dye set is
the first custom entry's tints with origin `Custom`; `default_dyes` are
used only when `custom_dyes` is empty. -/
theorem customDyes_priority_resolution (h : Nat) (g : GearAsset)
    (d : MaterialDye) (rest : List MaterialDye)
    (hh : h ≠ 0) (hc : g.custom_dyes = d :: rest) :
    loadShaderDyes h (.asset g) = some g.custom_dyes ∧
    (∀ dd ld, loadShaderDyes h (.asset ⟨g.custom_dyes, dd, ld⟩) =
      some g.custom_dyes) ∧
    toResolvedDyeSet (loadShaderDyes h (.asset g)) DyeOrigin.Custom =
      some ⟨d.primary_albedo_tint, d.secondary_albedo_tint,
            d.worn_albedo_tint, DyeOrigin.Custom⟩ ∧
    (∀ g2 : GearAsset, g2.custom_dyes = [] → g2.default_dyes ≠ [] →
      loadShaderDyes h (.asset g2) = some g2.default_dyes) := by
  have hmain : loadShaderDyes h (.asset g) = some g.custom_dyes := by
    unfold loadShaderDyes
    rw [if_neg hh]
    simp [hc]
  refine ⟨hmain, ?_, ?_, ?_⟩
  · intro dd ld
    unfold loadShaderDyes
    rw [if_neg hh]
    simp [hc]
  · rw [hmain, hc]
    rfl
  · intro g2 hc2 hd2
    unfold loadShaderDyes
    rw [if_neg hh]
    simp [hc2, List.length_pos.mpr hd2]

/-- Concrete instance of `customDyes_priority_resolution`: shader 5's
asset carries one custom dye; the resolved set is its tints with origin
`Custom` even though `default_dyes` and `locked_dyes` are non-empty. -/
theorem customDyes_priority_resolution_witness :
    toResolvedDyeSet
      (loadShaderDyes 5 (.asset
        ⟨[⟨(1, 0, 0), (0, 1, 0), (0, 0, 1)⟩],
         [⟨(0, 0, 0), (0, 0, 0), (0, 0, 0)⟩],
         [⟨(1, 1, 1), (1, 1, 1), (1, 1, 1)⟩]⟩))
      DyeOrigin.Custom =
    some ⟨(1, 0, 0), (0, 1, 0), (0, 0, 1), DyeOrigin.Custom⟩ :=
  (customDyes_priority_resolution 5
    ⟨[⟨(1, 0, 0), (0, 1, 0), (0, 0, 1)⟩],
     [⟨(0, 0, 0), (0, 0, 0), (0, 0, 0)⟩],
     [⟨(1, 1, 1), (1, 1, 1), (1, 1, 1)⟩]⟩
    ⟨(1, 0, 0), (0, 1, 0), (0, 0, 1)⟩ []
    (by decide) rfl).2.2.1

/-- C7: when the computed bounding-box maximum extent is non-finite or
≤ 0, placement normalization substitutes extent 2 and center (0, 1, 0);
the scale factor is exactly 1, and the resulting position, scale and
camera distance are all finite — never NaN or an infinity. `t` stands
for the (finite, non-zero) value of `Math.tan(fov/2)`. -/
theorem JsNum.isFinite_fin (q : ℚ) : (JsNum.fin q).isFinite = true := rfl

theorem JsNum.max2_fin_isFinite (a b : ℚ) :
    ((JsNum.fin a).max2 (JsNum.fin b)).isFinite = true := by
  unfold JsNum.max2
  rw [if_neg (by simp)]
  split <;> rfl

theorem degenerate_bbox_defaults (m : JsNum) (c : V3) (t : ℚ)
    (hm : m.isFinite = false ∨ m.leb (.fin 0) = true) (ht : t ≠ 0) :
    (normalizePlacement m c (.fin t)).maxDim = .fin 2 ∧
    (normalizePlacement m c (.fin t)).center = ⟨.fin 0, .fin 1, .fin 0⟩ ∧
    (normalizePlacement m c (.fin t)).scaleFactor = .fin 1 ∧
    (normalizePlacement m c (.fin t)).position =
      ⟨.fin 0, .fin (-1), .fin 0⟩ ∧
    (normalizePlacement m c (.fin t)).scaleFactor.isFinite = true ∧
    (normalizePlacement m c (.fin t)).position.x.isFinite = true ∧
    (normalizePlacement m c (.fin t)).position.y.isFinite = true ∧
    (normalizePlacement m c (.fin t)).position.z.isFinite = true ∧
    (normalizePlacement m c (.fin t)).cameraDistance.isFinite = true ∧
    (normalizePlacement m c (.fin t)).cameraZ.isFinite = true := by
  have hbad : (!m.isFinite || m.leb (.fin 0)) = true := by
    rcases hm with h | h <;> simp [h]
  have h2t : (2 : ℚ) * t ≠ 0 := mul_ne_zero two_ne_zero ht
  simp only [normalizePlacement, hbad, if_true, Bool.true_eq]
  simp only [JsNum.ltb, JsNum.mul, JsNum.div, JsNum.neg, JsNum.leb]
  norm_num [h2t, JsNum.max2_fin_isFinite, JsNum.isFinite_fin]

/-- Concrete instance of `degenerate_bbox_defaults` at a NaN extent:
scale factor 1 and a finite camera z. -/
theorem degenerate_bbox_defaults_witness :
    (normalizePlacement .nan ⟨.inf, .nan, .fin 3⟩
      (.fin (2 / 5))).scaleFactor = .fin 1 ∧
    (normalizePlacement .nan ⟨.inf, .nan, .fin 3⟩
      (.fin (2 / 5))).cameraZ.isFinite = true :=
  ⟨(degenerate_bbox_defaults .nan ⟨.inf, .nan, .fin 3⟩ (2 / 5)
      (Or.inl rfl) (by norm_num)).2.2.1,
   (degenerate_bbox_defaults .nan ⟨.inf, .nan, .fin 3⟩ (2 / 5)
      (Or.inl rfl) (by norm_num)).2.2.2.2.2.2.2.2.2⟩

/-- C8: a failure while loading one item is caught at the item boundary,
so every item whose own load succeeds still appears in the rendered
group; a run in which zero items resolve reports the distinct
nothing-loaded status rather than presenting an empty model (the
`rendered` outcome never carries an empty group). -/
theorem per_item_failure_isolation (items : List Nat)
    (loadItem : Nat → Except LoadError Mesh) :
    (loadCharacterEquipment items loadItem ≠ LoadOutcome.rendered []) ∧
    (items ≠ [] → (∀ h ∈ items, (loadItem h).toOption = none) →
      loadCharacterEquipment items loadItem = LoadOutcome.nothingLoaded) ∧
    (∀ h m, h ∈ items → loadItem h = .ok m →
      ∃ ms, loadCharacterEquipment items loadItem = LoadOutcome.rendered ms ∧
        m ∈ ms) := by
  refine ⟨?_, ?_, ?_⟩
  · simp only [loadCharacterEquipment]
    split
    · simp
    · split
      · simp
      · next hne =>
        intro hcon
        have : items.filterMap (fun h => (loadItem h).toOption) = [] :=
          LoadOutcome.rendered.inj hcon
        simp [this] at hne
  · intro hne hall
    simp only [loadCharacterEquipment]
    rw [if_neg (by simp [hne])]
    have : items.filterMap (fun h => (loadItem h).toOption) = [] := by
      rw [List.filterMap_eq_nil]
      exact hall
    simp [this]
  · intro h m hmem hok
    have hmm : m ∈ items.filterMap (fun x => (loadItem x).toOption) := by
      rw [List.mem_filterMap]
      refine ⟨h, hmem, ?_⟩
      rw [hok]
      rfl
    have hne : items ≠ [] := by
      intro hcon
      rw [hcon] at hmem
      cases hmem
    refine ⟨items.filterMap (fun x => (loadItem x).toOption), ?_, hmm⟩
    simp only [loadCharacterEquipment]
    rw [if_neg (by simp [hne]),
        if_neg (by simp [List.ne_nil_of_mem hmm])]

/-- Loader in which every item load fails (geometry fetch failure). -/
def allItemsFail : Nat → Except LoadError Mesh :=
  fun _ => .error LoadError.geometryFetchFailed

/-- Concrete instance of `per_item_failure_isolation`: both items fail,
so the user sees the distinct nothing-loaded status and no empty model
is rendered. -/
theorem per_item_failure_isolation_witness :
    loadCharacterEquipment [111, 222] allItemsFail =
      LoadOutcome.nothingLoaded ∧
    loadCharacterEquipment [111, 222] allItemsFail ≠
      LoadOutcome.rendered [] :=
  ⟨(per_item_failure_isolation [111, 222] allItemsFail).2.1
      (by decide) (by intro h hmem; rfl),
   (per_item_failure_isolation [111, 222] allItemsFail).1⟩

theorem parseEquipmentForLoader_ok {p : ProfileSnapshot} {cid : Nat}
    {out : ParsedEquipment}
    (h : parseEquipmentForLoader p cid = .ok out) :
    out.armorDetails =
      (armorTriples ((assocLookup p.characterEquipment cid).getD [])
        (fun iid => assocLookup p.itemSockets iid)
        ((assocLookup p.characterRenderData cid).getD [])).map
          (fun t => t.entry) ∧
    out.itemHashes = out.armorDetails.map (fun a => a.itemHash) ∧
    out.shaderHashes =
      (armorTriples ((assocLookup p.characterEquipment cid).getD [])
        (fun iid => assocLookup p.itemSockets iid)
        ((assocLookup p.characterRenderData cid).getD [])).map
          (fun t => t.shaderHash) ∧
    out.itemDyes =
      (armorTriples ((assocLookup p.characterEquipment cid).getD [])
        (fun iid => assocLookup p.itemSockets iid)
        ((assocLookup p.characterRenderData cid).getD [])).map
          (fun t => t.dyes) := by
  simp only [parseEquipmentForLoader] at h
  cases hc : assocLookup p.characters cid with
  | none =>
    rw [hc] at h
    cases h
  | some ch =>
    rw [hc] at h
    have hout := (Except.ok.inj h).symm
    subst hout
    exact ⟨rfl, rfl, rfl, rfl⟩

theorem filterMap_map_sublist {α β : Type} (f : α → Option β) (g : β → α)
    (l : List α) (hfg : ∀ a b, f a = some b → g b = a) :
    ((l.filterMap f).map g).Sublist l := by
  induction l with
  | nil => simp
  | cons a l ih =>
    cases hfa : f a with
    | none =>
      rw [List.filterMap_cons_none hfa]
      exact (ih).cons a
    | some b =>
      rw [List.filterMap_cons_some hfa, List.map_cons, hfg a b hfa]
      exact (ih).cons₂ a

theorem resolveBucket_eq_some {items : List EquippedItem}
    {sockets : Nat → Option (List SocketState)} {peer : List PeerItem}
    {b : ArmorBucket} {t : ArmorResolved}
    (h : resolveBucket items sockets peer b = some t) :
    t.entry.bucket = b ∧
    t.shaderHash = shaderForItem (sockets t.entry.instanceId) ∧
    t.dyes = peerDyesFor peer t.entry.itemHash ∧
    ∃ i ∈ items, i.bucketHash = b.hash := by
  unfold resolveBucket at h
  cases hf : items.find? (fun i => i.bucketHash == b.hash) with
  | none =>
    rw [hf] at h
    cases h
  | some item =>
    rw [hf] at h
    have ht := (Option.some.inj h).symm
    subst ht
    refine ⟨rfl, rfl, rfl, item, List.mem_of_find?_eq_some hf, ?_⟩
    have hp := List.find?_some hf
    simpa using hp

theorem resolveBucket_some_of_mem {items : List EquippedItem}
    (sockets : Nat → Option (List SocketState)) (peer : List PeerItem)
    {b : ArmorBucket} {i : EquippedItem}
    (hi : i ∈ items) (hb : i.bucketHash = b.hash) :
    ∃ t, resolveBucket items sockets peer b = some t := by
  unfold resolveBucket
  cases hf : items.find? (fun x => x.bucketHash == b.hash) with
  | some item => exact ⟨_, rfl⟩
  | none =>
    exfalso
    have := List.find?_eq_none.mp hf i hi
    simp [hb] at this

theorem mem_armorBucketOrder (b : ArmorBucket) : b ∈ armorBucketOrder := by
  cases b <;> simp [armorBucketOrder]

/-- C1: the armor descriptor sequence `parseEquipmentForLoader` produces
has at most one entry per armor slot, its slots appear as a subsequence
of the fixed order Helmet, Gauntlets, Chest, Legs, ClassItem whatever
the ordering of the input equipment list, and a slot appears exactly
when the equipment list has an item in that slot's bucket — empty slots
are omitted, not null-padded. -/
theorem armor_slots_unique_ordered (p : ProfileSnapshot) (cid : Nat)
    (out : ParsedEquipment)
    (h : parseEquipmentForLoader p cid = .ok out) :
    ((out.armorDetails.map (fun a => a.bucket)).Sublist armorBucketOrder) ∧
    ((out.armorDetails.map (fun a => a.bucket)).Nodup) ∧
    (∀ b : ArmorBucket,
      b ∈ out.armorDetails.map (fun a => a.bucket) ↔
      ∃ i ∈ (assocLookup p.characterEquipment cid).getD [],
        i.bucketHash = b.hash) := by
  obtain ⟨hdet, -, -, -⟩ := parseEquipmentForLoader_ok h
  rw [hdet, List.map_map]
  have hsub :
      ((armorTriples ((assocLookup p.characterEquipment cid).getD [])
        (fun iid => assocLookup p.itemSockets iid)
        ((assocLookup p.characterRenderData cid).getD [])).map
          ((fun a => a.bucket) ∘ (fun t : ArmorResolved => t.entry))).Sublist
        armorBucketOrder :=
    filterMap_map_sublist _ _ _ (fun a t hat => (resolveBucket_eq_some hat).1)
  refine ⟨hsub, hsub.nodup (by decide), ?_⟩
  intro b
  constructor
  · intro hmem
    obtain ⟨t, htmem, htb⟩ := List.mem_map.mp hmem
    obtain ⟨a, -, hat⟩ := List.mem_filterMap.mp htmem
    obtain ⟨hbucket, -, -, i, hi, hba⟩ := resolveBucket_eq_some hat
    have hab : a = b := by
      rw [← htb]
      exact hbucket.symm
    subst hab
    exact ⟨i, hi, hba⟩
  · rintro ⟨i, hi, hb⟩
    obtain ⟨t, ht⟩ := resolveBucket_some_of_mem
      (fun iid => assocLookup p.itemSockets iid)
      ((assocLookup p.characterRenderData cid).getD []) hi hb
    refine List.mem_map.mpr ⟨t, ?_, (resolveBucket_eq_some ht).1⟩
    exact List.mem_filterMap.mpr ⟨b, mem_armorBucketOrder b, ht⟩

/-- C10: the parallel output sequences of `parseEquipmentForLoader` stay
aligned: `itemHashes`, `shaderHashes` and `itemDyes` all have the length
of `armorDetails`, and at every index the item hash is that armor
entry's, the shader hash is the one detected on that entry's instance
sockets, and the dye list is the peer-view dyes of that entry's item
hash. -/
theorem parallel_sequences_aligned (p : ProfileSnapshot) (cid : Nat)
    (out : ParsedEquipment)
    (h : parseEquipmentForLoader p cid = .ok out) :
    out.itemHashes.length = out.armorDetails.length ∧
    out.shaderHashes.length = out.armorDetails.length ∧
    out.itemDyes.length = out.armorDetails.length ∧
    (∀ n : Nat,
      out.itemHashes.get? n =
        (out.armorDetails.get? n).map (fun a => a.itemHash) ∧
      out.shaderHashes.get? n = (out.armorDetails.get? n).map
        (fun a => shaderForItem (assocLookup p.itemSockets a.instanceId)) ∧
      out.itemDyes.get? n = (out.armorDetails.get? n).map
        (fun a => peerDyesFor
          ((assocLookup p.characterRenderData cid).getD []) a.itemHash)) := by
  obtain ⟨hdet, hhash, hshade, hdyes⟩ := parseEquipmentForLoader_ok h
  have hkey : ∀ t ∈ armorTriples
      ((assocLookup p.characterEquipment cid).getD [])
      (fun iid => assocLookup p.itemSockets iid)
      ((assocLookup p.characterRenderData cid).getD []),
      t.shaderHash = shaderForItem (assocLookup p.itemSockets t.entry.instanceId) ∧
      t.dyes = peerDyesFor
        ((assocLookup p.characterRenderData cid).getD []) t.entry.itemHash := by
    intro t ht
    obtain ⟨a, -, hat⟩ := List.mem_filterMap.mp ht
    obtain ⟨-, hs, hd, -⟩ := resolveBucket_eq_some hat
    exact ⟨hs, hd⟩
  refine ⟨?_, ?_, ?_, ?_⟩
  · simp [hhash]
  · simp [hshade, hdet]
  · simp [hdyes, hdet]
  · intro n
    refine ⟨?_, ?_, ?_⟩
    · rw [hhash, List.get?_map]
    · rw [hshade, hdet, List.get?_map, List.get?_map]
      cases hn : (armorTriples ((assocLookup p.characterEquipment cid).getD [])
          (fun iid => assocLookup p.itemSockets iid)
          ((assocLookup p.characterRenderData cid).getD [])).get? n with
      | none => rfl
      | some t =>
        simp only [Option.map_some']
        exact congrArg some (hkey t (List.get?_mem hn)).1
    · rw [hdyes, hdet, List.get?_map, List.get?_map]
      cases hn : (armorTriples ((assocLookup p.characterEquipment cid).getD [])
          (fun iid => assocLookup p.itemSockets iid)
          ((assocLookup p.characterRenderData cid).getD [])).get? n with
      | none => rfl
      | some t =>
        simp only [Option.map_some']
        exact congrArg some (hkey t (List.get?_mem hn)).2


/-- A concrete profile snapshot: helmet and chest equipped (listed out
of slot order), the helmet instance carrying an invisible socket 3 and
a visible shader socket 4, and peer-view dyes for the chest item. -/
def sampleProfile : ProfileSnapshot :=
  { characters := [(7, ⟨0, 0, 0, 1800, "e"⟩)],
    characterEquipment :=
      [(7, [⟨14239492, 111, 9001⟩, ⟨3448274439, 222, 9002⟩])],
    itemSockets :=
      [(9002, [⟨1, true, true⟩, ⟨2, true, true⟩, ⟨9, true, true⟩,
               ⟨3, true, false⟩, ⟨77, true, true⟩])],
    characterRenderData := [(7, [⟨111, [⟨10, 20⟩]⟩])] }

/-- The parse result of `sampleProfile` for character 7. -/
def sampleParsed : ParsedEquipment :=
  { character := ⟨0, 0, 0, 1800, "e"⟩,
    itemHashes := [222, 111],
    shaderHashes := [77, 0],
    armorDetails := [⟨.helmet, 222, 9002⟩, ⟨.chest, 111, 9001⟩],
    itemDyes := [[], [⟨10, 20⟩]],
    peerViewEquipment := [⟨111, [⟨10, 20⟩]⟩] }

/-- Concrete instance of `armor_slots_unique_ordered` on
`sampleProfile`: the produced slots form a nodup subsequence of the
fixed slot order. -/
theorem armor_slots_unique_ordered_witness :
    (sampleParsed.armorDetails.map (fun a => a.bucket)).Sublist
      armorBucketOrder ∧
    (sampleParsed.armorDetails.map (fun a => a.bucket)).Nodup :=
  ⟨(armor_slots_unique_ordered sampleProfile 7 sampleParsed rfl).1,
   (armor_slots_unique_ordered sampleProfile 7 sampleParsed rfl).2.1⟩

/-- Concrete instance of `parallel_sequences_aligned` on
`sampleProfile`: lengths agree and entry 0's shader hash is the one
detected on entry 0's instance sockets. -/
theorem parallel_sequences_aligned_witness :
    sampleParsed.itemHashes.length = sampleParsed.armorDetails.length ∧
    sampleParsed.shaderHashes.get? 0 =
      (sampleParsed.armorDetails.get? 0).map
        (fun a => shaderForItem (assocLookup sampleProfile.itemSockets
          a.instanceId)) :=
  ⟨(parallel_sequences_aligned sampleProfile 7 sampleParsed rfl).1,
   ((parallel_sequences_aligned sampleProfile 7 sampleParsed rfl).2.2.2 0).2.1⟩

end Visor3D
